import Mathlib

/-!
Verification of the velociraptor-api client core (src/lib.rs and
src/client/main.rs): a shallow embedding of the streaming query executor
`APIClient::sync_query`, the flow scheduler `Client::schedule_flow`, the
flow monitor loops `ClientFlow::fetch` / `ClientFlow::fetch_log` together
with the log classification in the `client` binary, and the chunked file
fetcher `APIClient::fetch`, with theorems about their behavior.

Streams, scripted service responses and row decoding are made explicit
parameters: the real code reads them from a gRPC channel and serde_json;
here a response stream is a `List` of items and a row decoder is a
function `String → Except String (List T)` standing for
`serde_json::from_str::<Vec<T>>`.
-/

namespace VelociraptorApi

/-- Error enum `APIClientError` from src/lib.rs (lines 39-51). The payloads
of all variants except `VQL` are opaque foreign error values
(`http::Error`, `tonic::transport::Error`, `tonic::Status`,
`serde_json::Error`), modelled as strings; `VQL` carries the actual log
text as in the source. -/
inductive APIClientError : Type
| HTTP (e : String)
| Transport (e : String)
| Status (e : String)
| MalformedResponse (e : String)
| VQL (log : String)
deriving DecidableEq

/-- Modelled from the spec: the generated gRPC response message type
`VqlResponse` lives in the `proto` module, which is not under src/.
`response` (the JSON-encoded row batch) and `log` are the two fields that
`APIClient::sync_query` reads; `queryName` is the optional
originating-query-name field of the response message described in the
spec's external-interface section (§6). -/
structure VqlResponseMsg : Type where
  queryName : String
  response : String
  log : String
deriving DecidableEq

/-- One item of the tonic response stream consumed by `sync_query`
(src/lib.rs line 150): `response.next().await` yields
`Option<Result<VqlResponse, Status>>`, so each present item is either a
message or a status error; `err` carries the status text. -/
inductive StreamItem : Type
| ok (m : VqlResponseMsg)
| err (status : String)
deriving DecidableEq

/-- Prefix test on character lists (pattern first, then the scanned list). -/
def listStarts : List Char → List Char → Bool
| [], _ => true
| _ :: _, [] => false
| p :: ps, c :: cs => if p = c then listStarts ps cs else false

/-- Models Rust `str::starts_with`: does `s` start with `pat`? -/
def strStarts (s pat : String) : Bool :=
  listStarts pat.data s.data

/-- Is an `Except` value an `ok`? (Models `Result::is_ok`.) -/
def excIsOk {ε α : Type} : Except ε α → Bool
| .ok _ => true
| .error _ => false

/-- Row-batch phase of one iteration of the `sync_query` receive loop
(src/lib.rs lines 151-157): a non-empty `response` field is decoded with
serde_json and the decoded rows are appended to the accumulator; a decode
failure aborts the call with `MalformedResponse`. -/
def rowPhase {T : Type} (dec : String → Except String (List T))
    (acc : List T) (m : VqlResponseMsg) : Except APIClientError (List T) :=
  if m.response = "" then .ok acc
  else
    match dec m.response with
    | .ok rows => .ok (acc ++ rows)
    | .error e => .error (.MalformedResponse e)

/-- Log phase of one iteration of the `sync_query` receive loop
(src/lib.rs lines 158-163): a non-empty log line that starts with the
sentinel "VQL Error:" aborts the call with `VQL` carrying the full log
text. -/
def logPhase {T : Type} (m : VqlResponseMsg) (acc : List T) :
    Except APIClientError (List T) :=
  if m.log = "" then .ok acc
  else if strStarts m.log "VQL Error:" then .error (.VQL m.log)
  else .ok acc

/-- One full iteration of the `sync_query` receive loop: the row batch is
processed first, then the log line is inspected. -/
def processMsg {T : Type} (dec : String → Except String (List T))
    (acc : List T) (m : VqlResponseMsg) : Except APIClientError (List T) :=
  match rowPhase dec acc m with
  | .error e => .error e
  | .ok acc2 => logPhase m acc2

/-- The receive loop of `sync_query` (src/lib.rs lines 149-166):
`while let Some(Ok(msg)) = response.next().await { ... }`. Note that the
`while let` pattern match fails both on end of stream (`None`) and on a
stream error item (`Some(Err(_))`); in both cases the loop exits and the
accumulated result is returned as `Ok`. -/
def syncQueryLoop {T : Type} (dec : String → Except String (List T)) :
    List T → List StreamItem → Except APIClientError (List T)
| acc, [] => .ok acc
| acc, .err _ :: _ => .ok acc
| acc, .ok m :: rest =>
  match processMsg dec acc m with
  | .error e => .error e
  | .ok acc2 => syncQueryLoop dec acc2 rest

/-- `APIClient::sync_query` (src/lib.rs lines 113-167), abstracted over the
response stream: the request-building part is `sync_query_args` below; the
receive loop starts from an empty accumulator. -/
def sync_query {T : Type} (dec : String → Except String (List T))
    (items : List StreamItem) : Except APIClientError (List T) :=
  syncQueryLoop dec [] items

/-- Rows contributed by one message: the decoded batch when `response` is
non-empty and decodes, nothing otherwise. -/
def batchRows {T : Type} (dec : String → Except String (List T))
    (m : VqlResponseMsg) : List T :=
  if m.response = "" then []
  else
    match dec m.response with
    | .ok rows => rows
    | .error _ => []

/-- Concatenation, in stream-arrival order, of the decoded rows of every
non-empty row batch in the stream, regardless of originating query name. -/
def streamRows {T : Type} (dec : String → Except String (List T)) :
    List StreamItem → List T
| [] => []
| .ok m :: rest => batchRows dec m ++ streamRows dec rest
| .err _ :: rest => streamRows dec rest

/-- Concatenation, in stream-arrival order, of the decoded rows of every
non-empty row batch that the service attributed to the given query name.
This follows the spec's words (per-name accumulation keyed by the
originating query name); it is the spec-side definition compared against
the source-side `sync_query`. -/
def namedRows {T : Type} (dec : String → Except String (List T))
    (name : String) : List StreamItem → List T
| [] => []
| .ok m :: rest =>
  (if m.queryName = name then batchRows dec m else []) ++ namedRows dec name rest
| .err _ :: rest => namedRows dec name rest

/-- A message is benign for the receive loop: its row batch (if any)
decodes, and its log line does not start with the error sentinel. -/
def goodMsg {T : Type} (dec : String → Except String (List T))
    (m : VqlResponseMsg) : Bool :=
  (if m.response = "" then true else excIsOk (dec m.response))
    && !(strStarts m.log "VQL Error:")

/-- A stream item is benign: it is a message (not a stream error) and the
message is benign. -/
def goodItem {T : Type} (dec : String → Except String (List T)) :
    StreamItem → Bool
| .ok m => goodMsg dec m
| .err _ => false

/-- Struct `VqlEnv` from the gRPC request (one environment key/value pair),
as built in src/lib.rs lines 118-123. -/
structure VqlEnv : Type where
  key : String
  value : String
deriving DecidableEq

/-- Struct `VqlRequest`: one named query (src/lib.rs lines 125-128). -/
structure VqlRequest : Type where
  name : String
  vql : String
deriving DecidableEq

/-- The fields of `VqlCollectorArgs` that `sync_query` sets (src/lib.rs
lines 136-142); the remaining proto fields are left at their defaults by
the source (`..VqlCollectorArgs::default()`) and are omitted here. -/
structure VqlCollectorArgs : Type where
  env : List VqlEnv
  org_id : String
  max_row : Nat
  query : List VqlRequest
deriving DecidableEq

/-- Struct `QueryOptions` from src/lib.rs lines 94-105. -/
structure QueryOptions : Type where
  env : List (String × String)
  org_id : Option String
  max_row : Nat
deriving DecidableEq

/-- The `QueryOptions` produced by `QueryOptions::builder().build()` with no
setters called: every field is marked `#[builder(default)]`, so `env` is
the empty `Vec`, `org_id` is `None`, and `max_row` is `u64::default()`,
i.e. `0`. -/
def QueryOptions.mkDefault : QueryOptions :=
  { env := [], org_id := none, max_row := 0 }

/-- Request building of `sync_query` (src/lib.rs lines 118-143): the
environment pairs are converted to `VqlEnv`, a missing organization id is
sent as the empty string (`unwrap_or_default`), `max_row` is passed
through, and the single query text is wrapped as a one-element list whose
`VqlRequest` has the empty name. -/
def sync_query_args (query : String) (options : QueryOptions) : VqlCollectorArgs :=
  { env := options.env.map (fun kv => { key := kv.1, value := kv.2 })
  , org_id := options.org_id.getD ""
  , max_row := options.max_row
  , query := [{ name := "", vql := query }] }

/-- Split a character list on `'/'` (separator occurrences delimit parts;
adjacent separators yield empty parts). -/
def splitSlash : List Char → List (List Char)
| [] => [[]]
| c :: rest =>
  if c = '/' then [] :: splitSlash rest
  else
    match splitSlash rest with
    | [] => [[c]]
    | h :: t => (c :: h) :: t

/-- The path decomposition of `APIClient::fetch` (src/lib.rs lines 171-178):
`Path::components()` filtered through `Component::Normal`. Unix `Path`
components classify an empty part (leading, doubled or trailing slash) as
a separator or `RootDir`, `"."` as `CurDir` and `".."` as `ParentDir`;
only the remaining parts are `Normal` and survive the `filter_map`
(`to_string_lossy` is the identity on valid UTF-8). -/
def normalComponents (path : String) : List String :=
  (splitSlash path.data).filterMap fun part =>
    if part = [] then none
    else if part = ['.'] then none
    else if part = ['.', '.'] then none
    else some (String.mk part)

/-- The fields of the `VfsFileBuffer` request that `APIClient::fetch` sets
(src/lib.rs lines 180-184 and 191-194); the remaining proto fields are
left at their defaults by the source. -/
structure VfsFileBuffer : Type where
  components : List String
  length : Nat
  offset : Nat
deriving DecidableEq

/-- The request template of `APIClient::fetch` (src/lib.rs lines 180-184):
the decomposed path, a fixed chunk length of 1024 and the initial offset 0. -/
def fetchTemplate (path : String) : VfsFileBuffer :=
  { components := normalComponents path, length := 1024, offset := 0 }

/-- The chunk-read loop of `APIClient::fetch` (src/lib.rs lines 187-208),
abstracted over the sequence of `data` payloads the service returns, one
per issued request. It returns the list of issued requests together with
the accumulated bytes (bytes are modelled as `Nat`); `none` means the
script ended before a zero-length response, in which case the real loop
would keep issuing requests. A zero-length response breaks the loop
without appending; otherwise the bytes are appended and the offset
advances by the returned length. -/
def vfsLoop (template : VfsFileBuffer) :
    Nat → List (List Nat) → Option (List VfsFileBuffer × List Nat)
| _, [] => none
| off, d :: rest =>
  if d.length = 0 then some ([{ template with offset := off }], [])
  else
    match vfsLoop template (off + d.length) rest with
    | none => none
    | some pr => some ({ template with offset := off } :: pr.1, d ++ pr.2)

/-- `APIClient::fetch` (src/lib.rs lines 170-210) over a scripted sequence
of chunk responses: build the request template from the path, then run the
chunk-read loop from offset 0. -/
def fetch (path : String) (responses : List (List Nat)) :
    Option (List VfsFileBuffer × List Nat) :=
  vfsLoop (fetchTemplate path) 0 responses

/-- The offsets at which the chunk-read loop issues its successive
requests, given the non-final chunk payloads: starting at `off`, each
response advances the offset by its length. -/
def offsets : Nat → List (List Nat) → List Nat
| off, [] => [off]
| off, d :: rest => off :: offsets (off + d.length) rest

/-- Local struct `Request` of `Client::schedule_flow` (src/lib.rs lines
238-241): the decoded row field holding the flow identifier. -/
structure Request : Type where
  flow_id : String
deriving DecidableEq

/-- Local struct `Submit` of `Client::schedule_flow` (src/lib.rs lines
242-245): one decoded row of the scheduling meta-query. -/
structure Submit : Type where
  request : Request
deriving DecidableEq

/-- Possible outcomes of `Client::schedule_flow` as observed by its caller:
a flow identifier, a returned `APIClientError`, or abnormal termination
(an index-out-of-bounds panic). -/
inductive ScheduleOutcome : Type
| ok (flow_id : String)
| err (e : APIClientError)
| panicked
deriving DecidableEq

/-- Is the outcome an error returned to the caller? -/
def ScheduleOutcome.isErr : ScheduleOutcome → Bool
| .err _ => true
| _ => false

/-- Result handling of `Client::schedule_flow` (src/lib.rs lines 252-273),
abstracted over the outcome of the inner `sync_query`: a query error
propagates (`.await?`); otherwise the flow identifier is taken from the
first row by indexing, `requests[0].request.flow_id` — which panics
(index out of bounds) when the result set is empty. -/
def schedule_flow (rows : Except APIClientError (List Submit)) : ScheduleOutcome :=
  match rows with
  | .error e => .err e
  | .ok [] => .panicked
  | .ok (r :: _) => .ok r.request.flow_id

/-- Local struct `FlowStatus` of `ClientFlow::fetch` (src/lib.rs lines
291-294): the `state` field of a status row. -/
structure FlowStatus : Type where
  state : String
deriving DecidableEq

/-- Rust `#[derive(Default)]` for `FlowStatus`: the default state is the
empty string (the spec calls this default the Unset state). -/
instance : Inhabited FlowStatus := ⟨{ state := "" }⟩

/-- One status poll of `ClientFlow::fetch` (src/lib.rs line 313):
`status.first().cloned().unwrap_or_default().state` — the state of the
first returned row, or the default state when no row was returned. -/
def statusPoll (rows : List FlowStatus) : String :=
  (rows.head?.getD default).state

/-- The fixed backoff interval of every polling loop, in milliseconds
(`Duration::from_millis(100)`, src/lib.rs lines 318, 339, 361). -/
def backoffMillis : Nat := 100

/-- The status-polling loop of `ClientFlow::fetch` (src/lib.rs lines
304-319) over a scripted sequence of status query results: returns the
number of polls issued and the number of backoff sleeps taken, or `none`
when the script is exhausted while the state still equals "RUNNING" (the
real loop would poll again). -/
def statusLoop : List (List FlowStatus) → Option (Nat × Nat)
| [] => none
| rows :: rest =>
  if statusPoll rows = "RUNNING" then
    match statusLoop rest with
    | none => none
    | some pr => some (pr.1 + 1, pr.2 + 1)
  else some (1, 0)

/-- The result-polling loop of `ClientFlow::fetch` (src/lib.rs lines
326-340) over a scripted sequence of result query rows: an empty result is
retried after a backoff sleep, and the first non-empty result is returned
as-is; `none` when the script is exhausted while all results were empty.
Returns (polls, sleeps, rows). -/
def resultLoop {T : Type} : List (List T) → Option (Nat × Nat × List T)
| [] => none
| r :: rest =>
  if r.isEmpty then
    match resultLoop rest with
    | none => none
    | some pr => some (pr.1 + 1, pr.2.1 + 1, pr.2.2)
  else some (1, 0, r)

/-- `ClientFlow::fetch` (src/lib.rs lines 290-341) over scripted status and
result sequences: run the status loop until the state is no longer
"RUNNING", then run the result loop; returns (status polls, status
sleeps, result polls, result sleeps, rows). -/
def flow_fetch {T : Type} (statuses : List (List FlowStatus))
    (results : List (List T)) : Option (Nat × Nat × Nat × Nat × List T) :=
  match statusLoop statuses with
  | none => none
  | some sp =>
    match resultLoop results with
    | none => none
    | some rp => some (sp.1, sp.2, rp.1, rp.2.1, rp.2.2)

/-- Struct `FlowLogEntry` from src/lib.rs lines 381-386 (and the identical
local `FlowLog` in src/client/main.rs lines 163-168): a timestamp in
seconds since the epoch, a severity level, and a message. -/
structure FlowLogEntry : Type where
  client_time : Nat
  level : String
  message : String
deriving DecidableEq

/-- `ClientFlow::fetch_log` (src/lib.rs lines 343-377, same loop as
`fetch_flow_log` in src/client/main.rs lines 170-197) over a scripted
sequence of log query results: an empty result is retried after a backoff
sleep; the first non-empty batch is returned; `none` when the script is
exhausted while all results were empty. -/
def fetch_log : List (List FlowLogEntry) → Option (List FlowLogEntry)
| [] => none
| b :: rest => if b.isEmpty then fetch_log rest else some b

/-- The emission condition of the log classification loop in
src/client/main.rs lines 316-327: an entry is written to the diagnostic
channel (stderr, with its `client_time` resolved to a wall-clock
timestamp) when its level is "ERROR" or "WARN". -/
def isEmitted (e : FlowLogEntry) : Bool :=
  if e.level = "ERROR" then true
  else if e.level = "WARN" then true
  else false

/-- The failure condition of the log classification loop in
src/client/main.rs lines 328-330: an entry sets the error flag exactly
when its level is "ERROR". -/
def isErrorLevel (e : FlowLogEntry) : Bool :=
  if e.level = "ERROR" then true else false

/-- The log classification loop of src/client/main.rs lines 315-331,
returning the entries emitted to the diagnostic channel (in order) and the
error flag: each entry is emitted when its level is "ERROR" or "WARN", and
the flag is set when any entry's level is "ERROR". -/
def emitAndFlag : List FlowLogEntry → List FlowLogEntry × Bool
| [] => ([], false)
| e :: rest =>
  let pr := emitAndFlag rest
  ((if isEmitted e then e :: pr.1 else pr.1), (isErrorLevel e || pr.2))

/-- The log classification of src/client/main.rs lines 315-334: after the
emission loop, when the error flag is set the flow fetch fails with
`format!("Flow {} failed.", flow_id)` before any row data is requested.
The error type (`Box<dyn Error>` holding the formatted message) is
modelled as a string. -/
def flowLogCheck (flow_id : String) (entries : List FlowLogEntry) :
    List FlowLogEntry × Except String Unit :=
  let pr := emitAndFlag entries
  (pr.1,
   if pr.2 then Except.error ("Flow " ++ flow_id ++ " failed.")
   else Except.ok ())

/-- A concrete row decoder used for evaluating the model on fixed inputs:
it stands in for `serde_json::from_str::<Vec<u64>>` on the three fixture
batches and fails on anything else. -/
def decFix : String → Except String (List Nat) := fun s =>
  if s = "[1]" then .ok [1]
  else if s = "[2,3]" then .ok [2, 3]
  else .error "malformed row batch"

deriving instance DecidableEq for Except

/-! Helper lemmas about the receive loop of `sync_query`. -/

/-- A log line that does not start with the error sentinel passes the log
phase unchanged. -/
theorem logPhase_of_not_sentinel {T : Type} (m : VqlResponseMsg) (acc : List T)
    (h : strStarts m.log "VQL Error:" = false) : logPhase m acc = .ok acc := by
  unfold logPhase
  by_cases hl : m.log = ""
  · simp [hl]
  · simp [hl, h]

/-- A log line that starts with the error sentinel aborts the log phase
with `VQL` carrying the full log text. -/
theorem logPhase_of_sentinel {T : Type} (m : VqlResponseMsg) (acc : List T)
    (h : strStarts m.log "VQL Error:" = true) :
    logPhase m acc = .error (.VQL m.log) := by
  unfold logPhase
  by_cases hl : m.log = ""
  · rw [hl] at h
    exact absurd h (by decide)
  · simp [hl, h]

/-- A row batch that is empty or decodes successfully passes the row phase
appending exactly its decoded rows. -/
theorem rowPhase_of_good {T : Type} (dec : String → Except String (List T))
    (acc : List T) (m : VqlResponseMsg)
    (h : (if m.response = "" then true else excIsOk (dec m.response)) = true) :
    rowPhase dec acc m = .ok (acc ++ batchRows dec m) := by
  unfold rowPhase batchRows
  by_cases hr : m.response = ""
  · simp [hr]
  · rw [if_neg hr] at h
    rw [if_neg hr, if_neg hr]
    cases hd : dec m.response with
    | ok rows => rfl
    | error e => rw [hd] at h; simp [excIsOk] at h

/-- A non-empty row batch that fails to decode aborts the row phase — and
hence the whole message — with `MalformedResponse`. -/
theorem processMsg_row_error {T : Type} (dec : String → Except String (List T))
    (acc : List T) (m : VqlResponseMsg) (e : String)
    (hr : m.response ≠ "") (hd : dec m.response = .error e) :
    processMsg dec acc m = .error (.MalformedResponse e) := by
  unfold processMsg rowPhase
  rw [if_neg hr, hd]

/-- A benign message contributes exactly its decoded rows and continues the
loop. -/
theorem processMsg_of_good {T : Type} (dec : String → Except String (List T))
    (acc : List T) (m : VqlResponseMsg) (h : goodMsg dec m = true) :
    processMsg dec acc m = .ok (acc ++ batchRows dec m) := by
  unfold goodMsg at h
  rw [Bool.and_eq_true] at h
  obtain ⟨h1, h2⟩ := h
  rw [Bool.not_eq_true'] at h2
  unfold processMsg
  rw [rowPhase_of_good dec acc m h1]
  exact logPhase_of_not_sentinel m _ h2

/-- Running the receive loop across a benign stream segment accumulates
exactly the segment's decoded rows. -/
theorem syncQueryLoop_append {T : Type} (dec : String → Except String (List T)) :
    ∀ (pre : List StreamItem) (acc : List T) (l : List StreamItem),
      pre.all (goodItem dec) = true →
      syncQueryLoop dec acc (pre ++ l)
        = syncQueryLoop dec (acc ++ streamRows dec pre) l := by
  intro pre
  induction pre with
  | nil =>
    intro acc l _
    simp [streamRows]
  | cons it pre ih =>
    intro acc l hall
    rw [List.all_cons, Bool.and_eq_true] at hall
    obtain ⟨hit, hall⟩ := hall
    cases it with
    | err s => simp [goodItem] at hit
    | ok m =>
      rw [List.cons_append]
      show syncQueryLoop dec acc (.ok m :: (pre ++ l)) = _
      rw [syncQueryLoop, processMsg_of_good dec acc m hit]
      show syncQueryLoop dec (acc ++ batchRows dec m) (pre ++ l) = _
      rw [ih (acc ++ batchRows dec m) l hall]
      simp [streamRows, List.append_assoc]

/-! Claim theorems. -/

/-- Claim C1 (amended): `sync_query` submits its single query as a
one-element list whose `VqlRequest` carries the empty name, and returns
one flat row sequence: over a stream of benign messages the result is the
concatenation, in stream-arrival order, of the decoded rows of every
non-empty row batch (regardless of each batch's originating query name),
and a message whose row batch is empty leaves the accumulator untouched —
rows already accumulated are never dropped. -/
theorem sync_query_flat_accumulation {T : Type}
    (dec : String → Except String (List T)) (msgs : List StreamItem)
    (h : msgs.all (goodItem dec) = true) :
    sync_query dec msgs = .ok (streamRows dec msgs)
    ∧ (∀ (acc : List T) (m : VqlResponseMsg) (rest : List StreamItem),
        m.response = "" → strStarts m.log "VQL Error:" = false →
        syncQueryLoop dec acc (.ok m :: rest) = syncQueryLoop dec acc rest)
    ∧ (∀ (q : String) (o : QueryOptions),
        (sync_query_args q o).query = [{ name := "", vql := q }]) := by
  refine ⟨?_, ?_, ?_⟩
  · have h0 := syncQueryLoop_append dec msgs [] [] h
    simpa [sync_query, syncQueryLoop] using h0
  · intro acc m rest hresp hlog
    have hg : goodMsg dec m = true := by
      simp [goodMsg, hresp, hlog]
    rw [syncQueryLoop, processMsg_of_good dec acc m hg]
    show syncQueryLoop dec (acc ++ batchRows dec m) rest = _
    simp [batchRows, hresp]
  · intro q o
    rfl

/-- Witness for C1: on a three-message stream (a batch, an empty chunk with
a benign log line, a second batch) the call returns the concatenation of
both decoded batches. -/
theorem sync_query_flat_accumulation_witness :
    sync_query decFix
      [ .ok { queryName := "", response := "[1]", log := "" }
      , .ok { queryName := "", response := "", log := "progress" }
      , .ok { queryName := "", response := "[2,3]", log := "" } ]
      = .ok [1, 2, 3] := by
  have h := (sync_query_flat_accumulation decFix
    [ .ok { queryName := "", response := "[1]", log := "" }
    , .ok { queryName := "", response := "", log := "progress" }
    , .ok { queryName := "", response := "[2,3]", log := "" } ] (by decide)).1
  exact h.trans (by decide)

/-- Claim C1 counterexample: the receive loop ignores the originating query
name entirely. The single submitted query is named "" by `sync_query`, yet
a batch the service attributes to a different name is still appended to
the flat result, so the returned rows for the submitted name are not the
concatenation of the batches sent for that name (which is empty here). -/
theorem sync_query_ignores_query_names :
    sync_query decFix [.ok { queryName := "other", response := "[1]", log := "" }]
      = .ok [1]
    ∧ namedRows decFix "" [.ok { queryName := "other", response := "[1]", log := "" }]
      = []
    ∧ sync_query decFix [.ok { queryName := "other", response := "[1]", log := "" }]
      ≠ .ok (namedRows decFix ""
          [.ok { queryName := "other", response := "[1]", log := "" }]) := by
  exact ⟨by decide, by decide, by decide⟩

/-- Claim C2: a stream whose earlier items are benign messages and which
then carries a message whose log line starts with "VQL Error:" makes the
call fail with a `VQL` error carrying the full log text, regardless of how
many valid row batches preceded it; the accumulated partial result is not
returned. -/
theorem sync_query_sentinel_aborts {T : Type}
    (dec : String → Except String (List T)) (pre : List StreamItem)
    (m : VqlResponseMsg) (rest : List StreamItem)
    (hpre : pre.all (goodItem dec) = true)
    (hrow : (if m.response = "" then true else excIsOk (dec m.response)) = true)
    (hlog : strStarts m.log "VQL Error:" = true) :
    sync_query dec (pre ++ .ok m :: rest) = .error (.VQL m.log) := by
  unfold sync_query
  rw [syncQueryLoop_append dec pre [] (.ok m :: rest) hpre]
  rw [syncQueryLoop]
  unfold processMsg
  rw [rowPhase_of_good dec _ m hrow]
  show (match logPhase m _ with
        | Except.error e => Except.error e
        | Except.ok acc2 => syncQueryLoop dec acc2 rest) = _
  rw [logPhase_of_sentinel m _ hlog]

/-- Witness for C2: one valid batch followed by a sentinel log line fails
with the `VQL` error carrying the whole log text. -/
theorem sync_query_sentinel_aborts_witness :
    sync_query decFix
      [ .ok { queryName := "", response := "[1]", log := "" }
      , .ok { queryName := "", response := "", log := "VQL Error: no such column" } ]
      = .error (.VQL "VQL Error: no such column") := by
  exact sync_query_sentinel_aborts decFix
    [ .ok { queryName := "", response := "[1]", log := "" } ]
    { queryName := "", response := "", log := "VQL Error: no such column" } []
    (by decide) (by decide) (by decide)

/-- Claim C3 (evaluating the code at the failing input): an error item
arriving on the response stream after a valid row batch makes the
`while let Some(Ok(msg))` loop exit, and the call returns the accumulated
partial result as success — the transport error is swallowed rather than
surfaced. -/
theorem sync_query_swallows_stream_error :
    sync_query decFix
      [ .ok { queryName := "", response := "[1]", log := "" }
      , .err "connection lost mid-call" ]
      = .ok [1]
    ∧ sync_query decFix
      [ .ok { queryName := "", response := "[1]", log := "" }
      , .err "connection lost mid-call" ]
      ≠ .error (.Transport "connection lost mid-call") := by
  exact ⟨by decide, by decide⟩

/-- Claim C4 counterexample: on an empty result set `schedule_flow` indexes
`requests[0]` out of bounds and terminates abnormally; no error value is
returned to the caller. -/
theorem schedule_flow_empty_result_panics :
    schedule_flow (.ok []) = .panicked
    ∧ (schedule_flow (.ok [])).isErr = false := by
  exact ⟨rfl, rfl⟩

/-- Claim C4 (amended): when the underlying query returns an empty result
set, `schedule_flow` terminates abnormally (an index-out-of-bounds panic
from `requests[0]`) rather than returning an unexpected-empty-result
error; a non-empty result set yields the first row's flow identifier,
never a silently defaulted one; and an error of the underlying query
(including row decoding failing because the flow-identifier field is
absent, which surfaces as `MalformedResponse` from `sync_query`) is
returned to the caller. -/
theorem schedule_flow_outcomes :
    schedule_flow (.ok []) = .panicked
    ∧ (∀ (r : Submit) (rs : List Submit),
        schedule_flow (.ok (r :: rs)) = .ok r.request.flow_id)
    ∧ (∀ e : APIClientError, schedule_flow (.error e) = .err e) := by
  exact ⟨rfl, fun r rs => rfl, fun e => rfl⟩

/-- Witness for C4 (amended): a singleton result set yields its flow id. -/
theorem schedule_flow_outcomes_witness :
    schedule_flow (.ok [{ request := { flow_id := "F.CACHQN7B7F0BG" } }])
      = .ok "F.CACHQN7B7F0BG" := by
  exact schedule_flow_outcomes.2.1 { request := { flow_id := "F.CACHQN7B7F0BG" } } []

/-! Helper lemmas for the flow log classification. -/

/-- The emission loop returns exactly the WARN/ERROR entries, in order, and
flags exactly the presence of an ERROR entry. -/
theorem emitAndFlag_eq (l : List FlowLogEntry) :
    emitAndFlag l = (l.filter isEmitted, l.any isErrorLevel) := by
  induction l with
  | nil => rfl
  | cons e rest ih =>
    simp [emitAndFlag, ih, List.filter_cons, List.any_cons]

/-- `fetch_log` only ever returns a non-empty batch. -/
theorem fetch_log_first_nonempty :
    ∀ (batches : List (List FlowLogEntry)) (B : List FlowLogEntry),
      fetch_log batches = some B → B ≠ [] := by
  intro batches
  induction batches with
  | nil =>
    intro B h
    simp [fetch_log] at h
  | cons b rest ih =>
    intro B h
    by_cases hb : b.isEmpty
    · rw [fetch_log, if_pos hb] at h
      exact ih B h
    · rw [fetch_log, if_neg hb] at h
      cases h
      intro hnil
      rw [hnil] at hb
      simp at hb

/-- Claim C5: the first non-empty log batch is classified entry by entry:
all WARN- and ERROR-level entries are emitted to the diagnostic channel
(each carrying its `client_time`, from which the wall-clock timestamp is
resolved), and the flow fetch then fails with the flow-failed error
naming the flow exactly when some entry is ERROR-level; WARN-level entries
alone do not fail the operation. -/
theorem flow_log_error_escalation (fid : String)
    (batches : List (List FlowLogEntry)) (B : List FlowLogEntry)
    (hB : fetch_log batches = some B) :
    B ≠ []
    ∧ (flowLogCheck fid B).1 = B.filter isEmitted
    ∧ (B.any isErrorLevel = true →
        (flowLogCheck fid B).2 = Except.error ("Flow " ++ fid ++ " failed."))
    ∧ (B.any isErrorLevel = false → (flowLogCheck fid B).2 = Except.ok ()) := by
  refine ⟨fetch_log_first_nonempty batches B hB, ?_, ?_, ?_⟩
  · simp [flowLogCheck, emitAndFlag_eq]
  · intro h
    simp [flowLogCheck, emitAndFlag_eq, h]
  · intro h
    simp [flowLogCheck, emitAndFlag_eq, h]

/-- Witness for C5: a batch of one ERROR and two INFO entries (arriving
after one empty poll) emits exactly the ERROR entry and fails the flow
fetch with the flow-failed error naming the flow. -/
theorem flow_log_error_escalation_witness :
    (flowLogCheck "F.ABC"
      [ { client_time := 5, level := "ERROR", message := "artifact failed" }
      , { client_time := 6, level := "INFO", message := "collected 0 files" }
      , { client_time := 7, level := "INFO", message := "done" } ]).1
      = [ { client_time := 5, level := "ERROR", message := "artifact failed" } ]
    ∧ (flowLogCheck "F.ABC"
      [ { client_time := 5, level := "ERROR", message := "artifact failed" }
      , { client_time := 6, level := "INFO", message := "collected 0 files" }
      , { client_time := 7, level := "INFO", message := "done" } ]).2
      = Except.error "Flow F.ABC failed." := by
  have h := flow_log_error_escalation "F.ABC"
    [ []
    , [ { client_time := 5, level := "ERROR", message := "artifact failed" }
      , { client_time := 6, level := "INFO", message := "collected 0 files" }
      , { client_time := 7, level := "INFO", message := "done" } ] ]
    [ { client_time := 5, level := "ERROR", message := "artifact failed" }
    , { client_time := 6, level := "INFO", message := "collected 0 files" }
    , { client_time := 7, level := "INFO", message := "done" } ]
    (by decide)
  exact ⟨h.2.1.trans (by decide), (h.2.2.1 (by decide)).trans (by decide)⟩

/-- Claim C6: flow result retrieval polls status first — an empty status
result is treated as the default (Unset) state for that poll, the loop
re-polls after one fixed 100 ms backoff exactly when the state equals
"RUNNING" and stops on any other state — then polls results, retrying an
empty result set after the same backoff and returning the first non-empty
result set as-is in arrival order; on the scripted sequences
[Running, Running, Finished] and [empty, empty, [rowA, rowB]] it returns
[rowA, rowB] after exactly three status polls and three result polls. -/
theorem flow_fetch_polling :
    backoffMillis = 100
    ∧ statusPoll [] = (default : FlowStatus).state
    ∧ (∀ (rows : List FlowStatus) (rest : List (List FlowStatus)),
        statusPoll rows = "RUNNING" →
        statusLoop (rows :: rest)
          = (statusLoop rest).map (fun pr => (pr.1 + 1, pr.2 + 1)))
    ∧ (∀ (rows : List FlowStatus) (rest : List (List FlowStatus)),
        statusPoll rows ≠ "RUNNING" → statusLoop (rows :: rest) = some (1, 0))
    ∧ (∀ (T : Type) (rest : List (List T)),
        resultLoop ([] :: rest)
          = (resultLoop rest).map (fun pr => (pr.1 + 1, pr.2.1 + 1, pr.2.2)))
    ∧ (∀ (T : Type) (r : List T) (rest : List (List T)),
        r.isEmpty = false → resultLoop (r :: rest) = some (1, 0, r))
    ∧ (∀ (T : Type) (rowA rowB : T),
        flow_fetch
          [ [{ state := "RUNNING" }], [{ state := "RUNNING" }], [{ state := "FINISHED" }] ]
          [ [], [], [rowA, rowB] ]
          = some (3, 2, 3, 2, [rowA, rowB])) := by
  refine ⟨rfl, rfl, ?_, ?_, ?_, ?_, ?_⟩
  · intro rows rest h
    rw [statusLoop, if_pos h]
    cases statusLoop rest <;> rfl
  · intro rows rest h
    rw [statusLoop, if_neg h]
  · intro T rest
    rw [resultLoop]
    show (match resultLoop rest with
          | none => none
          | some pr => some (pr.1 + 1, pr.2.1 + 1, pr.2.2)) = _
    cases resultLoop rest <;> rfl
  · intro T r rest h
    rw [resultLoop, if_neg (by rw [h]; exact Bool.false_ne_true)]
  · intro T rowA rowB
    rfl

/-- Witness for C6: a single non-Running status poll stops the status loop
immediately, with no backoff sleep. -/
theorem flow_fetch_polling_witness :
    statusLoop [[{ state := "FINISHED" }]] = some (1, 0) := by
  exact flow_fetch_polling.2.2.2.1 [{ state := "FINISHED" }] [] (by decide)

/-! Helper lemmas for the chunked file fetch loop. -/

/-- The request offsets form a list one longer than the chunk script. -/
theorem offsets_length (l : List (List Nat)) :
    ∀ a : Nat, (offsets a l).length = l.length + 1 := by
  induction l with
  | nil => intro a; rfl
  | cons c cs ih => intro a; simp [offsets, ih]

/-- The request offsets are monotonically non-decreasing. -/
theorem offsets_chain (l : List (List Nat)) :
    ∀ a : Nat, (offsets a l).Chain' (· ≤ ·) := by
  induction l with
  | nil =>
    intro a
    simp [offsets]
  | cons c cs ih =>
    intro a
    have hd : ∃ t, offsets (a + c.length) cs = (a + c.length) :: t := by
      cases cs <;> exact ⟨_, rfl⟩
    obtain ⟨t, ht⟩ := hd
    rw [offsets, ht]
    refine List.chain'_cons.mpr ⟨by omega, ?_⟩
    rw [← ht]
    exact ih (a + c.length)

/-- Each request offset equals the number of bytes accumulated before that
request was issued. -/
theorem offsets_get (l : List (List Nat)) :
    ∀ (a i : Nat) (h : i < (offsets a l).length),
      (offsets a l).get ⟨i, h⟩ = a + ((l.take i).flatten).length := by
  induction l with
  | nil =>
    intro a i h
    cases i with
    | zero => simp [offsets]
    | succ n =>
      simp [offsets] at h
  | cons c cs ih =>
    intro a i h
    cases i with
    | zero => simp [offsets]
    | succ n =>
      have h' : n < (offsets (a + c.length) cs).length := by
        simpa [offsets] using h
      show (offsets (a + c.length) cs).get ⟨n, h'⟩ = _
      rw [ih (a + c.length) n h']
      simp only [List.take_succ_cons, List.flatten, List.length_append]
      omega

/-- The chunk-read loop over a script of non-empty chunks followed by a
zero-length response returns one request per response (at the offsets of
`offsets`) and the concatenation of all chunks; everything after the first
zero-length response is ignored. -/
theorem vfsLoop_script (template : VfsFileBuffer) :
    ∀ (chunks : List (List Nat)) (off : Nat) (rest : List (List Nat)),
      chunks.all (fun c => !c.isEmpty) = true →
      vfsLoop template off (chunks ++ [] :: rest)
        = some ((offsets off chunks).map (fun o => { template with offset := o }),
                chunks.flatten) := by
  intro chunks
  induction chunks with
  | nil =>
    intro off rest _
    simp [vfsLoop, offsets]
  | cons c cs ih =>
    intro off rest hall
    rw [List.all_cons, Bool.and_eq_true] at hall
    obtain ⟨hc, hall⟩ := hall
    have hlen : ¬c.length = 0 := by
      cases c
      · simp at hc
      · simp
    rw [List.cons_append, vfsLoop, if_neg hlen, ih (off + c.length) rest hall]
    simp [offsets]

/-- Every request the chunk-read loop issues carries the template's
component list. -/
theorem vfsLoop_components (template : VfsFileBuffer) :
    ∀ (script : List (List Nat)) (off : Nat) (out : List VfsFileBuffer × List Nat),
      vfsLoop template off script = some out →
      ∀ r ∈ out.1, r.components = template.components := by
  intro script
  induction script with
  | nil =>
    intro off out h
    simp [vfsLoop] at h
  | cons d rest ih =>
    intro off out h
    rw [vfsLoop] at h
    by_cases hd : d.length = 0
    · rw [if_pos hd] at h
      cases h
      intro r hr
      rw [List.mem_singleton] at hr
      rw [hr]
    · rw [if_neg hd] at h
      cases heq : vfsLoop template (off + d.length) rest with
      | none =>
        rw [heq] at h
        simp at h
      | some pr =>
        rw [heq] at h
        have hout : out = ({ template with offset := off } :: pr.1, d ++ pr.2) := by
          cases h
          rfl
        rw [hout]
        intro r hr
        rw [List.mem_cons] at hr
        cases hr with
        | inl hr => rw [hr]
        | inr hr => exact ih (off + d.length) pr heq r hr

/-- Claim C7: on a service script of non-empty chunk responses followed by
a zero-length response, `fetch` returns exactly the concatenation of the
chunks in order; it issues requests of fixed length 1024 starting at
offset 0, there is one request per response, the offsets are monotonically
non-decreasing and each equals the number of bytes accumulated so far, and
the loop terminates at the first zero-length response, which is not
appended (anything the script holds after it is ignored). -/
theorem fetch_reassembles_file (path : String) (chunks rest : List (List Nat))
    (h : chunks.all (fun c => !c.isEmpty) = true) :
    fetch path (chunks ++ [] :: rest)
      = some ((offsets 0 chunks).map
          (fun o => { components := normalComponents path, length := 1024, offset := o }),
          chunks.flatten)
    ∧ (offsets 0 chunks).length = chunks.length + 1
    ∧ (offsets 0 chunks).Chain' (· ≤ ·)
    ∧ (∀ (i : Nat) (hi : i < (offsets 0 chunks).length),
        (offsets 0 chunks).get ⟨i, hi⟩ = ((chunks.take i).flatten).length) := by
  refine ⟨?_, offsets_length chunks 0, offsets_chain chunks 0, ?_⟩
  · exact vfsLoop_script (fetchTemplate path) chunks 0 rest h
  · intro i hi
    simpa using offsets_get chunks 0 i hi

/-- Witness for C7: a 3-byte file served as a 2-byte chunk, a 1-byte chunk
and a zero-length response (with a junk response after it) is reassembled
as exactly those 3 bytes, via requests at offsets 0, 2, 3 of length 1024. -/
theorem fetch_reassembles_file_witness :
    fetch "downloads/C.1/F.2/out.zip" [[10, 11], [12], [], [99]]
      = some
        ( [ { components := ["downloads", "C.1", "F.2", "out.zip"], length := 1024, offset := 0 }
          , { components := ["downloads", "C.1", "F.2", "out.zip"], length := 1024, offset := 2 }
          , { components := ["downloads", "C.1", "F.2", "out.zip"], length := 1024, offset := 3 } ]
        , [10, 11, 12] ) := by
  have h := (fetch_reassembles_file "downloads/C.1/F.2/out.zip"
    [[10, 11], [12]] [[99]] (by decide)).1
  exact h.trans (by decide)

/-- No normal component is a traversal, current-directory or empty
segment. -/
theorem normalComponents_not_traversal (p : String) (s : String)
    (hs : s ∈ normalComponents p) : s ≠ ".." ∧ s ≠ "." ∧ s ≠ "" := by
  unfold normalComponents at hs
  rw [List.mem_filterMap] at hs
  obtain ⟨part, _, hpart⟩ := hs
  by_cases h1 : part = []
  · simp [h1] at hpart
  · by_cases h2 : part = ['.']
    · simp [h1, h2] at hpart
    · by_cases h3 : part = ['.', '.']
      · simp [h1, h2, h3] at hpart
      · rw [if_neg h1, if_neg h2, if_neg h3] at hpart
        rw [Option.some_inj] at hpart
        refine ⟨?_, ?_, ?_⟩
        · intro he
          apply h3
          have hdata := congrArg String.data (hpart.trans he)
          exact hdata
        · intro he
          apply h2
          have hdata := congrArg String.data (hpart.trans he)
          exact hdata
        · intro he
          apply h1
          have hdata := congrArg String.data (hpart.trans he)
          exact hdata

/-- Claim C8: the path is decomposed into its normal segments before any
request is issued — the request template is built from `normalComponents`
and every request the loop sends carries exactly that segment list — and
root, current-directory and traversal segments never appear in it; in
particular "a/../../etc/passwd" is sent as ["a", "etc", "passwd"]. -/
theorem fetch_strips_traversal :
    (fetchTemplate "a/../../etc/passwd").components = ["a", "etc", "passwd"]
    ∧ (∀ p : String,
        ".." ∉ normalComponents p ∧ "." ∉ normalComponents p ∧ "" ∉ normalComponents p)
    ∧ (∀ (path : String) (responses : List (List Nat)) (out : List VfsFileBuffer × List Nat),
        fetch path responses = some out →
        ∀ r ∈ out.1, r.components = normalComponents path) := by
  refine ⟨by decide, ?_, ?_⟩
  · intro p
    refine ⟨?_, ?_, ?_⟩
    · intro h
      exact (normalComponents_not_traversal p ".." h).1 rfl
    · intro h
      exact (normalComponents_not_traversal p "." h).2.1 rfl
    · intro h
      exact (normalComponents_not_traversal p "" h).2.2 rfl
  · intro path responses out h r hr
    exact vfsLoop_components (fetchTemplate path) responses 0 out h r hr

/-- Witness for C8: the single request issued for path "a/b" against an
immediately-empty file carries exactly the normal segments. -/
theorem fetch_strips_traversal_witness :
    ({ components := ["a", "b"], length := 1024, offset := 0 } : VfsFileBuffer).components
      = ["a", "b"] := by
  have h := fetch_strips_traversal.2.2 "a/b" [[]]
    ([{ components := ["a", "b"], length := 1024, offset := 0 }], [])
    (by decide)
    { components := ["a", "b"], length := 1024, offset := 0 }
    (List.mem_singleton.mpr rfl)
  exact h.trans (by decide)

/-- Claim C9 counterexample: `QueryOptions` built with no explicit
`max_row` defaults that field to `u64::default()`, i.e. 0 — the value sent
to the service is 0, not 10. -/
theorem query_options_default_not_ten :
    QueryOptions.mkDefault.max_row = 0
    ∧ (sync_query_args "SELECT 1 FROM scope()" QueryOptions.mkDefault).max_row = 0
    ∧ (sync_query_args "SELECT 1 FROM scope()" QueryOptions.mkDefault).max_row ≠ 10 := by
  exact ⟨rfl, rfl, by decide⟩

/-- Claim C9 (amended): query options built without explicit setters
default the environment to the empty list, the organization identifier to
none — sent to the service as the empty string, i.e. the root organization
— and the maximum-rows-per-batch field to 0 (the numeric default), which
is the value sent to the service. -/
theorem query_options_defaults :
    QueryOptions.mkDefault = { env := [], org_id := none, max_row := 0 }
    ∧ (∀ q : String,
        sync_query_args q QueryOptions.mkDefault
          = { env := [], org_id := "", max_row := 0,
              query := [{ name := "", vql := q }] }) := by
  exact ⟨rfl, fun q => rfl⟩

/-- Claim C10: within a single stream message the row batch is processed
before the log line is inspected: a malformed non-empty row batch makes
the call fail with `MalformedResponse` even when the log line carries the
"VQL Error:" sentinel, and a valid row batch is appended to the
accumulator by the row phase before the sentinel check fires the `VQL`
error. -/
theorem row_batch_before_log {T : Type} (dec : String → Except String (List T))
    (acc : List T) (m : VqlResponseMsg) :
    (∀ e : String, m.response ≠ "" → dec m.response = .error e →
      strStarts m.log "VQL Error:" = true →
      processMsg dec acc m = .error (.MalformedResponse e)
      ∧ sync_query dec [.ok m] = .error (.MalformedResponse e))
    ∧ (∀ rows : List T, m.response ≠ "" → dec m.response = .ok rows →
      strStarts m.log "VQL Error:" = true →
      rowPhase dec acc m = .ok (acc ++ rows)
      ∧ processMsg dec acc m = .error (.VQL m.log)) := by
  constructor
  · intro e h1 h2 _
    refine ⟨processMsg_row_error dec acc m e h1 h2, ?_⟩
    unfold sync_query
    rw [syncQueryLoop, processMsg_row_error dec [] m e h1 h2]
  · intro rows h1 h2 h3
    have hrow : rowPhase dec acc m = .ok (acc ++ rows) := by
      unfold rowPhase
      rw [if_neg h1, h2]
    refine ⟨hrow, ?_⟩
    unfold processMsg
    rw [hrow]
    exact logPhase_of_sentinel m _ h3

/-- Witness for C10: a message carrying both an undecodable row batch and a
sentinel log line fails with the decode error, not the query error. -/
theorem row_batch_before_log_witness :
    processMsg decFix [] { queryName := "", response := "oops", log := "VQL Error: bad" }
      = .error (.MalformedResponse "malformed row batch") := by
  exact ((row_batch_before_log decFix []
    { queryName := "", response := "oops", log := "VQL Error: bad" }).1
    "malformed row batch" (by decide) (by decide) (by decide)).1

end VelociraptorApi
